import Mathlib

/-!
Verification of the seed-protection subsystem of the MyQRLWallet front-end:
the PIN-based seed cipher (two worker revisions and the synchronous
WalletEncryptionUtil), the PIN attempt tracker, and the ML-KEM bridge
key-exchange service.

Modelling conventions (shallow embedding):
* PBKDF2 is modelled as an ideal deterministic KDF: the derived key is the
  record of its inputs (password, salt, iteration count).  Distinct inputs
  give distinct keys and equal inputs give equal keys, which is exactly the
  functional behaviour the source relies on.
* AES-CBC is modelled as an ideal cipher: a ciphertext remembers the key, IV
  and plaintext used to produce it; decrypting with the matching key and IV
  recovers the plaintext bytes, decrypting with any other key/IV yields
  garbage bytes that fail UTF-8 decoding.
* Random salt/IV generation (CryptoJS.lib.WordArray.random) and Date.now()
  are modelled by passing the sampled values as explicit arguments.
* Hex encoding of salt/IV round-trips exactly (salt.toString then
  CryptoJS.enc.Hex.parse), so both are folded to the raw value.
* JSON.stringify / JSON.parse of the fixed shapes used by the code are
  modelled by inductive string spaces: a constructor for strings carrying
  the expected JSON shape and a constructor for strings on which JSON.parse
  throws.  Thrown exceptions become Option / Except values.
* localStorage is modelled by passing the stored value in and returning the
  written value; an absent entry and an unparseable entry are explicit
  constructors.
-/

namespace MyQRLWallet

/-! ## Shared ideal cryptographic primitives -/

/-- Ideal model of a PBKDF2-derived 256-bit key: the key is determined by the
password, the salt and the iteration count (CryptoJS.PBKDF2 with
keySize 256/32). -/
structure Key where
  password : String
  salt : Nat
  iterations : Nat
deriving DecidableEq, Repr

/-- CryptoJS.PBKDF2(password, salt, {keySize: 256/32, iterations}). -/
def PBKDF2 (password : String) (salt : Nat) (iterations : Nat) : Key :=
  ⟨password, salt, iterations⟩

/-- Model of the UTF-8 plaintext strings that flow through the seed cipher:
either the JSON serialization of a seed pair (JSON.stringify of
an object with fields mnemonic and hexSeed) or a string on which JSON.parse
throws. -/
inductive PlainStr
  | seedJson (mnemonic hexSeed : String)
  | notJson (s : String)
deriving DecidableEq, Repr

/-- Emptiness test used by the revised worker (the falsiness check on the
decrypted string).  JSON.stringify output is never empty. -/
def PlainStr.isEmptyStr : PlainStr → Bool
  | .seedJson _ _ => false
  | .notJson s => s.isEmpty

/-- A decrypted seed pair: the result of JSON.parse of the inner plaintext. -/
structure Seed where
  mnemonic : String
  hexSeed : String
deriving DecidableEq, Repr

/-- JSON.parse of the inner plaintext, expecting the seed object. -/
def jsonParseSeed : PlainStr → Option Seed
  | .seedJson m h => some ⟨m, h⟩
  | .notJson _ => none

/-- Ideal-cipher model of an AES-CBC ciphertext (CryptoJS.AES.encrypt output,
base64 toString folded away): it records the key, IV and plaintext. -/
inductive Ctxt
  | enc (key : Key) (iv : Nat) (plain : PlainStr)
deriving DecidableEq, Repr

/-- Byte strings produced by AES-CBC decryption: either bytes that UTF-8
decode to a plaintext string, or garbage bytes (wrong key/IV) on which
WordArray.toString(CryptoJS.enc.Utf8) throws. -/
inductive Bytes
  | utf8 (s : PlainStr)
  | garbage (key : Key) (iv : Nat) (c : Ctxt)
deriving DecidableEq, Repr

/-- CryptoJS.AES.encrypt(plain, key, {iv}). -/
def aesEncrypt (key : Key) (iv : Nat) (plain : PlainStr) : Ctxt :=
  .enc key iv plain

/-- CryptoJS.AES.decrypt(c, key, {iv}): with the producing key and IV it
recovers the plaintext bytes, otherwise it yields garbage bytes. -/
def aesDecrypt (key : Key) (iv : Nat) (c : Ctxt) : Bytes :=
  match c with
  | .enc k i p => if k = key ∧ i = iv then .utf8 p else .garbage key iv c

/-- WordArray.toString(CryptoJS.enc.Utf8): succeeds exactly on decodable
bytes (a thrown malformed-UTF-8 error becomes none). -/
def bytesToUtf8 : Bytes → Option PlainStr
  | .utf8 s => some s
  | .garbage _ _ _ => none

/-! ## Seed envelope and its serialized string space -/

/-- The parsed seed envelope: fields of the JSON object produced by
encryptSeed.  The version field is an Option because JSON.parse of a
hand-constructed envelope may lack it (undefined in the source). -/
structure SeedEnvelope where
  encryptedData : Ctxt
  salt : Nat
  iv : Nat
  version : Option String
  timestamp : Nat
deriving DecidableEq, Repr

/-- Model of the serialized envelope string space fed to decryptSeed:
a string that JSON-parses to an envelope-shaped object, a string that
JSON-parses to something else (field access then yields undefined and
CryptoJS.enc.Hex.parse throws a generic TypeError), or a string on which
JSON.parse itself throws. -/
inductive EnvStr
  | json (e : SeedEnvelope)
  | jsonOther (tag : Nat)
  | notJson (s : String)
deriving DecidableEq, Repr

/-- Error codes of the revised crypto worker (CryptoErrorCode in the
source). -/
inductive CryptoErrorCode
  | INCORRECT_PIN
  | INVALID_DATA
  | UNKNOWN
deriving DecidableEq, Repr

/-- Failure of the revised worker's decryptSeed: a CryptoError carrying a
code, or a non-CryptoError exception escaping the function (mapped to
UNKNOWN by the onmessage handler). -/
inductive DecErr
  | cryptoError (code : CryptoErrorCode)
  | thrown
deriving DecidableEq, Repr

/-! ## PIN attempt tracker (src/utils/crypto/pinAttemptTracker.ts) -/

namespace PinAttemptTracker

def MAX_ATTEMPTS : Nat := 5

def LOCKOUT_DURATION_MS : Nat := 15 * 60 * 1000

/-- The AttemptData interface persisted in localStorage. -/
structure AttemptData where
  failedAttempts : Nat
  lockoutUntil : Option Nat
  lastAttemptTime : Nat
deriving DecidableEq, Repr

/-- The localStorage slot under the tracker key: absent, present but not
parseable as JSON, or a stored AttemptData record. -/
inductive StoredVal
  | absent
  | malformed (s : String)
  | data (d : AttemptData)
deriving DecidableEq, Repr

/-- The default state returned when nothing (valid) is stored. -/
def initialData : AttemptData := ⟨0, none, 0⟩

/-- getAttemptData(): JSON.parse the stored entry, falling back to the
initial record when the entry is absent or parsing throws. -/
def getAttemptData : StoredVal → AttemptData
  | .data d => d
  | .absent => initialData
  | .malformed _ => initialData

/-- setAttemptData(data): overwrite the stored entry. -/
def setAttemptData (d : AttemptData) : StoredVal :=
  .data d

/-- Result of checkLockout(). -/
structure LockoutStatus where
  isLocked : Bool
  remainingMs : Nat
deriving DecidableEq, Repr

/-- checkLockout(): threaded through the stored value and Date.now().
The source guards the whole block with the JavaScript truthiness test on
data.lockoutUntil, so a null lockout and a stored zero (falsy) both skip
the block — in particular no reset is written for a stored zero.  Returns
the updated stored value together with the result object. -/
def checkLockout (st : StoredVal) (now : Nat) : StoredVal × LockoutStatus :=
  let d := getAttemptData st
  match d.lockoutUntil with
  | some t =>
    if t ≠ 0 then
      if now < t then (st, ⟨true, t - now⟩)
      else (setAttemptData ⟨0, none, 0⟩, ⟨false, 0⟩)
    else (st, ⟨false, 0⟩)
  | none => (st, ⟨false, 0⟩)

/-- Result of recordFailedAttempt(). -/
structure FailedAttemptResult where
  isLocked : Bool
  remainingMs : Nat
  attemptsLeft : Nat
deriving DecidableEq, Repr

/-- recordFailedAttempt(): increments the counter, stamps the time, and on
reaching MAX_ATTEMPTS sets the lockout to now + LOCKOUT_DURATION_MS. -/
def recordFailedAttempt (st : StoredVal) (now : Nat) :
    StoredVal × FailedAttemptResult :=
  let d := getAttemptData st
  let d1 : AttemptData :=
    { d with failedAttempts := d.failedAttempts + 1, lastAttemptTime := now }
  if MAX_ATTEMPTS ≤ d1.failedAttempts then
    (setAttemptData { d1 with lockoutUntil := some (now + LOCKOUT_DURATION_MS) },
      ⟨true, LOCKOUT_DURATION_MS, 0⟩)
  else
    (setAttemptData d1, ⟨false, 0, MAX_ATTEMPTS - d1.failedAttempts⟩)

/-- recordSuccessfulAttempt(): unconditionally reset the stored record. -/
def recordSuccessfulAttempt (_st : StoredVal) : StoredVal :=
  setAttemptData ⟨0, none, 0⟩

/-- getRemainingAttempts(): Math.max(0, MAX_ATTEMPTS - failedAttempts);
truncated Nat subtraction models the max with 0. -/
def getRemainingAttempts (st : StoredVal) : Nat :=
  MAX_ATTEMPTS - (getAttemptData st).failedAttempts

/-- hasFailedAttempts(). -/
def hasFailedAttempts (st : StoredVal) : Bool :=
  0 < (getAttemptData st).failedAttempts

/-- clearAttemptTracker(): localStorage.removeItem. -/
def clearAttemptTracker (_st : StoredVal) : StoredVal :=
  .absent

/-- Run a sequence of recordFailedAttempt calls at the given times,
collecting the returned result objects. -/
def runFailedAttempts (st : StoredVal) : List Nat →
    StoredVal × List FailedAttemptResult
  | [] => (st, [])
  | t :: ts =>
    let r := recordFailedAttempt st t
    let rest := runFailedAttempts r.1 ts
    (rest.1, r.2 :: rest.2)

end PinAttemptTracker

/-! ## Crypto worker, earlier revision (src/utils/crypto/cryptoWorker.ts):
version-tabled iteration counts, no error classification. -/

namespace CryptoWorkerOld

def PIN_VERSION : String := "pin_v3"

def ITERATIONS_V3 : Nat := 600000

def ITERATIONS_V2 : Nat := 100000

def ITERATIONS_V1 : Nat := 5000

/-- getIterations(version): v3 and v2 by tag, anything else (including a
missing version field) falls back to the v1 count. -/
def getIterations (version : Option String) : Nat :=
  if version = some PIN_VERSION then ITERATIONS_V3
  else if version = some "pin_v2" then ITERATIONS_V2
  else ITERATIONS_V1

/-- encryptSeed(mnemonic, hexSeed, pin): fresh salt/iv and Date.now() are
passed in; always derives with ITERATIONS_V3 and stamps version pin_v3.
The returned envelope is the parsed form of the JSON string the source
returns (JSON.stringify / JSON.parse round-trip folded). -/
def encryptSeed (mnemonic hexSeed pin : String) (salt iv timestamp : Nat) :
    SeedEnvelope :=
  let key := PBKDF2 pin salt ITERATIONS_V3
  let encrypted := aesEncrypt key iv (.seedJson mnemonic hexSeed)
  { encryptedData := encrypted, salt := salt, iv := iv,
    version := some PIN_VERSION, timestamp := timestamp }

/-- decryptSeed(encryptedData, pin): none models any thrown exception
(JSON.parse of the envelope, Hex.parse of missing fields, toString(Utf8) of
garbage bytes, JSON.parse of a non-JSON plaintext).  This revision never
classifies failures. -/
def decryptSeed (env : EnvStr) (pin : String) : Option Seed :=
  match env with
  | .notJson _ => none
  | .jsonOther _ => none
  | .json parsed =>
    let key := PBKDF2 pin parsed.salt (getIterations parsed.version)
    match bytesToUtf8 (aesDecrypt key parsed.iv parsed.encryptedData) with
    | none => none
    | some s => jsonParseSeed s

end CryptoWorkerOld

/-! ## Crypto worker, revised (unnamed revision of cryptoWorker.ts):
error codes, empty-result check, requestId plumbing; getIterations ignores
the stored version and always uses the current count. -/

namespace CryptoWorkerRev

def PIN_VERSION : String := "pin_v3"

def ITERATIONS : Nat := 600000

/-- getIterations(_version): the version argument is ignored and the
current constant is always returned. -/
def getIterations (_version : Option String) : Nat :=
  ITERATIONS

/-- encryptSeed(mnemonic, hexSeed, pin): fresh salt/iv and Date.now() are
passed in; derives with ITERATIONS and stamps version pin_v3. -/
def encryptSeed (mnemonic hexSeed pin : String) (salt iv timestamp : Nat) :
    SeedEnvelope :=
  let key := PBKDF2 pin salt ITERATIONS
  let encrypted := aesEncrypt key iv (.seedJson mnemonic hexSeed)
  { encryptedData := encrypted, salt := salt, iv := iv,
    version := some PIN_VERSION, timestamp := timestamp }

/-- The byte-level decryption result inside decryptSeed (the local
variable named decrypted in the source). -/
def decryptedBytes (parsed : SeedEnvelope) (pin : String) : Bytes :=
  let key := PBKDF2 pin parsed.salt (getIterations parsed.version)
  aesDecrypt key parsed.iv parsed.encryptedData

/-- decryptSeed(encryptedData, pin) with the revised classification:
JSON.parse failure of the envelope is INVALID_DATA; a byte-level result
that fails UTF-8 decoding, or is empty, or fails the inner JSON.parse is
INCORRECT_PIN; a non-envelope JSON value makes field extraction throw a
non-CryptoError (DecErr.thrown). -/
def decryptSeed (env : EnvStr) (pin : String) : Except DecErr Seed :=
  match env with
  | .notJson _ => .error (.cryptoError .INVALID_DATA)
  | .jsonOther _ => .error .thrown
  | .json parsed =>
    match bytesToUtf8 (decryptedBytes parsed pin) with
    | none => .error (.cryptoError .INCORRECT_PIN)
    | some s =>
      if s.isEmptyStr then .error (.cryptoError .INCORRECT_PIN)
      else
        match jsonParseSeed s with
        | none => .error (.cryptoError .INCORRECT_PIN)
        | some seed => .ok seed

/-- The reEncrypt case of the worker handler: decrypt with the old PIN,
then encrypt the recovered pair with the new PIN; a decryption failure
escapes unchanged. -/
def reEncrypt (env : EnvStr) (oldPin newPin : String) (salt iv timestamp : Nat) :
    Except DecErr SeedEnvelope :=
  match decryptSeed env oldPin with
  | .error e => .error e
  | .ok decrypted =>
    .ok (encryptSeed decrypted.mnemonic decrypted.hexSeed newPin salt iv timestamp)

end CryptoWorkerRev

/-! ## WalletEncryptionUtil (walletEncryption.ts): synchronous PIN-based
seed encryption used by the UI paths. -/

namespace WalletEncryptionUtil

/-- Failures of the PIN-based utility: the invalid-PIN-format throw of
encryptSeedWithPin, and PinDecryptionError thrown by the catch-all of
decryptSeedWithPin. -/
inductive PinError
  | invalidPin
  | pinDecryptionError
deriving DecidableEq, Repr

/-- validatePin(pin): the regex test for 4 to 6 ASCII digit characters,
scanning the string's characters. -/
def validatePin (pin : String) : Bool :=
  decide (4 ≤ pin.length) && decide (pin.length ≤ 6) &&
    pin.toList.all Char.isDigit

/-- encryptSeedWithPin(mnemonic, hexSeed, pin): throws on an invalid PIN
before any key derivation; otherwise derives with 600000 iterations and
stamps version pin_v3. -/
def encryptSeedWithPin (mnemonic hexSeed pin : String) (salt iv timestamp : Nat) :
    Except PinError SeedEnvelope :=
  if !validatePin pin then .error .invalidPin
  else
    let key := PBKDF2 pin salt 600000
    .ok { encryptedData := aesEncrypt key iv (.seedJson mnemonic hexSeed),
          salt := salt, iv := iv, version := some "pin_v3",
          timestamp := timestamp }

/-- decryptSeedWithPin(encryptedData, pin): the body is one try/catch, so
every failure (unparseable envelope, missing fields, garbage bytes,
non-JSON plaintext) is reported as PinDecryptionError.  The iteration
count is 600000 for version pin_v3 and 5000 for anything else. -/
def decryptSeedWithPin (env : EnvStr) (pin : String) : Except PinError Seed :=
  match env with
  | .notJson _ => .error .pinDecryptionError
  | .jsonOther _ => .error .pinDecryptionError
  | .json parsed =>
    let iterations : Nat := if parsed.version = some "pin_v3" then 600000 else 5000
    let key := PBKDF2 pin parsed.salt iterations
    match bytesToUtf8 (aesDecrypt key parsed.iv parsed.encryptedData) with
    | none => .error .pinDecryptionError
    | some s =>
      match jsonParseSeed s with
      | none => .error .pinDecryptionError
      | some seed => .ok seed

/-- reEncryptSeed(encryptedSeed, oldPin, newPin): decrypt with the old PIN
(the throw propagates), then encrypt with the new PIN. -/
def reEncryptSeed (env : EnvStr) (oldPin newPin : String) (salt iv timestamp : Nat) :
    Except PinError SeedEnvelope :=
  match decryptSeedWithPin env oldPin with
  | .error e => .error e
  | .ok decrypted =>
    encryptSeedWithPin decrypted.mnemonic decrypted.hexSeed newPin salt iv timestamp

end WalletEncryptionUtil

/-! ## Bridge key-exchange (bridgeCrypto.ts, ML-KEM-1024 revision):
the web side acts as decapsulator. -/

namespace BridgeCrypto

def HKDF_SALT : String := "MyQRLWallet-Bridge-v2"

def HKDF_INFO : String := "BridgeCrypto-ML-KEM-1024-AES-GCM-Key"

/-- ML-KEM-1024 keypair, keys abstracted to tags. -/
structure MlKemKeyPair where
  publicKey : Nat
  secretKey : Nat
deriving DecidableEq, Repr

/-- Ideal model of the decapsulated shared secret: determined by the
ciphertext bytes and the secret key. -/
structure SharedSecret where
  ciphertext : List Nat
  secretKey : Nat
deriving DecidableEq, Repr

/-- ml_kem1024.decapsulate(ciphertext, secretKey). -/
def mlKemDecapsulate (ciphertext : List Nat) (secretKey : Nat) : SharedSecret :=
  ⟨ciphertext, secretKey⟩

/-- Ideal model of the HKDF-SHA256 derived AES-256-GCM key: determined by
the shared secret and the protocol-fixed salt and info strings. -/
structure AesKey where
  secret : SharedSecret
  salt : String
  info : String
deriving DecidableEq, Repr

/-- deriveAesKey(sharedSecret): HKDF with the fixed salt/info. -/
def deriveAesKey (secret : SharedSecret) : AesKey :=
  ⟨secret, HKDF_SALT, HKDF_INFO⟩

/-- DecapsulatorState of the service. -/
structure DecapsulatorState where
  keyPair : MlKemKeyPair
  sharedSecret : Option SharedSecret
  aesKey : Option AesKey
  isReady : Bool
  encryptionEnabled : Bool
deriving DecidableEq, Repr

/-- generateKeyPair(): fresh state around a keypair, not yet ready. -/
def generateKeyPair (keyPair : MlKemKeyPair) : DecapsulatorState :=
  { keyPair := keyPair, sharedSecret := none, aesKey := none,
    isReady := false, encryptionEnabled := false }

/-- Model of the base64 ciphertext argument: either atob succeeds and
decodes to the given bytes, or atob throws (caught by the catch-all). -/
inductive B64Input
  | valid (bytes : List Nat)
  | invalid (s : String)
deriving DecidableEq, Repr

/-- completeKeyExchange(ciphertextBase64): no keypair means false; a
decode failure is caught and returns false; a decoded ciphertext whose
length is not 1568 returns false before decapsulation; otherwise the
shared secret and AES key are derived and the session becomes ready. -/
def completeKeyExchange (st : Option DecapsulatorState) (ct : B64Input) :
    Option DecapsulatorState × Bool :=
  match st with
  | none => (none, false)
  | some s =>
    match ct with
    | .invalid _ => (some s, false)
    | .valid bytes =>
      if bytes.length ≠ 1568 then (some s, false)
      else
        let shared := mlKemDecapsulate bytes s.keyPair.secretKey
        let aesKey := deriveAesKey shared
        (some { s with sharedSecret := some shared, aesKey := some aesKey,
                        isReady := true, encryptionEnabled := true }, true)

/-- isReady(). -/
def isReady (st : Option DecapsulatorState) : Bool :=
  match st with
  | none => false
  | some s => s.isReady

end BridgeCrypto

/-! ## Claim theorems -/

/-- C1: Seed-cipher round-trip.  For every PIN passing the 4-6-digit shape
validator and every mnemonic and hex seed, decrypting the envelope produced
by encrypt with the same PIN returns exactly the encrypted pair — in the
revised worker and in the earlier worker alike (salt, IV and timestamp are
the sampled random values). -/
theorem seedCipher_roundtrip (m h p : String) (salt iv ts : Nat)
    (hp : WalletEncryptionUtil.validatePin p = true) :
    CryptoWorkerRev.decryptSeed (.json (CryptoWorkerRev.encryptSeed m h p salt iv ts)) p
      = .ok ⟨m, h⟩
    ∧ CryptoWorkerOld.decryptSeed (.json (CryptoWorkerOld.encryptSeed m h p salt iv ts)) p
      = some ⟨m, h⟩ := by
  refine ⟨?_, ?_⟩
  · simp [CryptoWorkerRev.decryptSeed, CryptoWorkerRev.encryptSeed,
      CryptoWorkerRev.decryptedBytes, CryptoWorkerRev.getIterations,
      aesEncrypt, aesDecrypt, bytesToUtf8, jsonParseSeed, PlainStr.isEmptyStr]
  · simp [CryptoWorkerOld.decryptSeed, CryptoWorkerOld.encryptSeed,
      CryptoWorkerOld.getIterations, CryptoWorkerOld.PIN_VERSION,
      aesEncrypt, aesDecrypt, bytesToUtf8, jsonParseSeed]

/-- Witness for C1 at concrete inputs. -/
theorem seedCipher_roundtrip_witness :
    WalletEncryptionUtil.validatePin "1234" = true
    ∧ (CryptoWorkerRev.decryptSeed
          (.json (CryptoWorkerRev.encryptSeed "abandon abandon about" "0x01ab" "1234" 5 6 7))
          "1234" = .ok ⟨"abandon abandon about", "0x01ab"⟩
       ∧ CryptoWorkerOld.decryptSeed
          (.json (CryptoWorkerOld.encryptSeed "abandon abandon about" "0x01ab" "1234" 5 6 7))
          "1234" = some ⟨"abandon abandon about", "0x01ab"⟩) :=
  ⟨by decide, seedCipher_roundtrip "abandon abandon about" "0x01ab" "1234" 5 6 7 (by decide)⟩

/-- C2 counterexample: in the revised worker, getIterations ignores the
stored version — it returns 600000 for a pin_v1 envelope instead of the
claimed 5000 — and an envelope hand-constructed with version pin_v1 and a
key derived with 5000 iterations does not decrypt with the matching PIN
there: it fails with INCORRECT_PIN. -/
theorem decryptVersion_cex :
    WalletEncryptionUtil.validatePin "1234" = true
    ∧ CryptoWorkerRev.getIterations (some "pin_v1") = 600000
    ∧ CryptoWorkerRev.getIterations (some "pin_v1") ≠ 5000
    ∧ CryptoWorkerRev.decryptSeed
        (.json ⟨aesEncrypt (PBKDF2 "1234" 7 5000) 9 (.seedJson "m" "h"), 7, 9,
          some "pin_v1", 0⟩) "1234"
      = .error (.cryptoError .INCORRECT_PIN) :=
  ⟨by decide, by decide, by decide, rfl⟩

/-- C2 amended: the earlier worker's decrypt honors the stored version per
the table pin_v3 to 600000, pin_v2 to 100000, and anything else (including
pin_v1 and an unset or unknown version) to 5000, and a hand-constructed
pin_v1 envelope with a 5000-iteration key decrypts correctly there; the
revised worker instead derives with the current 600000 count for every
envelope regardless of its version, so such a pin_v1 envelope fails there
with INCORRECT_PIN. -/
theorem decryptVersion_amended (v : Option String)
    (hv3 : v ≠ some "pin_v3") (hv2 : v ≠ some "pin_v2") :
    CryptoWorkerOld.getIterations (some "pin_v3") = 600000
    ∧ CryptoWorkerOld.getIterations (some "pin_v2") = 100000
    ∧ CryptoWorkerOld.getIterations v = 5000
    ∧ CryptoWorkerRev.getIterations v = 600000
    ∧ (∀ m h p salt iv ts,
        CryptoWorkerOld.decryptSeed
          (.json ⟨aesEncrypt (PBKDF2 p salt 5000) iv (.seedJson m h), salt, iv,
            some "pin_v1", ts⟩) p = some ⟨m, h⟩)
    ∧ (∀ m h p salt iv ts,
        CryptoWorkerRev.decryptSeed
          (.json ⟨aesEncrypt (PBKDF2 p salt 5000) iv (.seedJson m h), salt, iv,
            some "pin_v1", ts⟩) p = .error (.cryptoError .INCORRECT_PIN)) := by
  refine ⟨by decide, by decide, ?_, rfl, ?_, ?_⟩
  · simp [CryptoWorkerOld.getIterations, CryptoWorkerOld.PIN_VERSION, hv3, hv2,
      CryptoWorkerOld.ITERATIONS_V1]
  · intro m h p salt iv ts
    simp [CryptoWorkerOld.decryptSeed, CryptoWorkerOld.getIterations,
      CryptoWorkerOld.PIN_VERSION, CryptoWorkerOld.ITERATIONS_V1,
      aesEncrypt, aesDecrypt, bytesToUtf8, jsonParseSeed, PBKDF2]
  · intro m h p salt iv ts
    simp [CryptoWorkerRev.decryptSeed, CryptoWorkerRev.decryptedBytes,
      CryptoWorkerRev.getIterations, CryptoWorkerRev.ITERATIONS,
      aesEncrypt, aesDecrypt, bytesToUtf8, jsonParseSeed, PBKDF2, Key.mk.injEq]

/-- Witness for C2 amended at a concrete unknown version. -/
theorem decryptVersion_amended_witness :
    CryptoWorkerOld.getIterations (some "pin_v9") = 5000
    ∧ CryptoWorkerRev.getIterations (some "pin_v9") = 600000 :=
  ⟨(decryptVersion_amended (some "pin_v9") (by decide) (by decide)).2.2.1,
   (decryptVersion_amended (some "pin_v9") (by decide) (by decide)).2.2.2.1⟩

/-- C3 counterexample: the synchronous WalletEncryptionUtil decrypt (one of
the cited decrypt paths) reports an envelope that is not parseable JSON
with the same PinDecryptionError it uses for a wrong PIN, not with a
distinct InvalidData code — the two classes are conflated there. -/
theorem wrongPinClassification_cex :
    WalletEncryptionUtil.decryptSeedWithPin (.notJson "corrupt envelope") "1234"
      = .error .pinDecryptionError
    ∧ WalletEncryptionUtil.decryptSeedWithPin
        (.json ⟨aesEncrypt (PBKDF2 "9999" 1 600000) 2 (.seedJson "m" "h"), 1, 2,
          some "pin_v3", 0⟩) "1234"
      = .error .pinDecryptionError :=
  ⟨rfl, rfl⟩

/-- C3 amended: the revised worker's decryptSeed classifies exactly as
claimed — an unparseable envelope fails with INVALID_DATA; a byte-level
result that fails UTF-8 decoding, or is empty, or parses as UTF-8 but
fails JSON parsing fails with INCORRECT_PIN; a parsed envelope is never
reported as INVALID_DATA or as a generic error — but the synchronous
WalletEncryptionUtil decrypt reports every failure, including an
unparseable envelope, as PinDecryptionError. -/
theorem wrongPinClassification (e : SeedEnvelope) (pin s : String) :
    CryptoWorkerRev.decryptSeed (.notJson s) pin = .error (.cryptoError .INVALID_DATA)
    ∧ (bytesToUtf8 (CryptoWorkerRev.decryptedBytes e pin) = none →
        CryptoWorkerRev.decryptSeed (.json e) pin = .error (.cryptoError .INCORRECT_PIN))
    ∧ (∀ d, bytesToUtf8 (CryptoWorkerRev.decryptedBytes e pin) = some d →
        d.isEmptyStr = true →
        CryptoWorkerRev.decryptSeed (.json e) pin = .error (.cryptoError .INCORRECT_PIN))
    ∧ (∀ d, bytesToUtf8 (CryptoWorkerRev.decryptedBytes e pin) = some d →
        jsonParseSeed d = none →
        CryptoWorkerRev.decryptSeed (.json e) pin = .error (.cryptoError .INCORRECT_PIN))
    ∧ CryptoWorkerRev.decryptSeed (.json e) pin ≠ .error (.cryptoError .INVALID_DATA)
    ∧ CryptoWorkerRev.decryptSeed (.json e) pin ≠ .error .thrown
    ∧ WalletEncryptionUtil.decryptSeedWithPin (.notJson s) pin
      = .error .pinDecryptionError := by
  refine ⟨rfl, ?_, ?_, ?_, ?_, ?_, rfl⟩
  · intro hb
    simp [CryptoWorkerRev.decryptSeed, hb]
  · intro d hb hd
    simp [CryptoWorkerRev.decryptSeed, hb, hd]
  · intro d hb hd
    cases hemp : d.isEmptyStr <;>
      simp [CryptoWorkerRev.decryptSeed, hb, hd, hemp]
  · cases hb : bytesToUtf8 (CryptoWorkerRev.decryptedBytes e pin) with
    | none => simp [CryptoWorkerRev.decryptSeed, hb]
    | some d =>
      cases hemp : d.isEmptyStr with
      | true => simp [CryptoWorkerRev.decryptSeed, hb, hemp]
      | false =>
        cases hj : jsonParseSeed d <;>
          simp [CryptoWorkerRev.decryptSeed, hb, hemp, hj]
  · cases hb : bytesToUtf8 (CryptoWorkerRev.decryptedBytes e pin) with
    | none => simp [CryptoWorkerRev.decryptSeed, hb]
    | some d =>
      cases hemp : d.isEmptyStr with
      | true => simp [CryptoWorkerRev.decryptSeed, hb, hemp]
      | false =>
        cases hj : jsonParseSeed d <;>
          simp [CryptoWorkerRev.decryptSeed, hb, hemp, hj]

/-- Witness for C3 amended at concrete inputs. -/
theorem wrongPinClassification_witness :
    CryptoWorkerRev.decryptSeed
        (.json ⟨aesEncrypt (PBKDF2 "9999" 1 600000) 2 (.seedJson "m" "h"), 1, 2,
          some "pin_v3", 0⟩) "1234"
      = .error (.cryptoError .INCORRECT_PIN) :=
  (wrongPinClassification
      ⟨aesEncrypt (PBKDF2 "9999" 1 600000) 2 (.seedJson "m" "h"), 1, 2,
        some "pin_v3", 0⟩ "1234" "x").2.1 rfl

/-- C4: Re-encryption upgrades.  In the revised worker and in
WalletEncryptionUtil alike, reEncrypt is decrypt with the old PIN followed
by encrypt with the new PIN: a decryption failure (in particular an
incorrect-PIN one) propagates unchanged, and on success the returned
envelope carries version pin_v3 and a key derived with 600000 iterations,
regardless of the input envelope's version. -/
theorem reEncrypt_upgrades (env : EnvStr) (oldPin newPin : String) (salt iv ts : Nat)
    (hold : WalletEncryptionUtil.validatePin oldPin = true)
    (hnew : WalletEncryptionUtil.validatePin newPin = true) :
    (∀ e, CryptoWorkerRev.decryptSeed env oldPin = .error e →
        CryptoWorkerRev.reEncrypt env oldPin newPin salt iv ts = .error e)
    ∧ (∀ m h, CryptoWorkerRev.decryptSeed env oldPin = .ok ⟨m, h⟩ →
        CryptoWorkerRev.reEncrypt env oldPin newPin salt iv ts
          = .ok ⟨aesEncrypt (PBKDF2 newPin salt 600000) iv (.seedJson m h),
                salt, iv, some "pin_v3", ts⟩)
    ∧ (∀ e, WalletEncryptionUtil.decryptSeedWithPin env oldPin = .error e →
        WalletEncryptionUtil.reEncryptSeed env oldPin newPin salt iv ts = .error e)
    ∧ (∀ m h, WalletEncryptionUtil.decryptSeedWithPin env oldPin = .ok ⟨m, h⟩ →
        WalletEncryptionUtil.reEncryptSeed env oldPin newPin salt iv ts
          = .ok ⟨aesEncrypt (PBKDF2 newPin salt 600000) iv (.seedJson m h),
                salt, iv, some "pin_v3", ts⟩) := by
  refine ⟨?_, ?_, ?_, ?_⟩
  · intro e he
    simp [CryptoWorkerRev.reEncrypt, he]
  · intro m h he
    simp [CryptoWorkerRev.reEncrypt, he, CryptoWorkerRev.encryptSeed,
      CryptoWorkerRev.ITERATIONS, CryptoWorkerRev.PIN_VERSION]
  · intro e he
    simp [WalletEncryptionUtil.reEncryptSeed, he]
  · intro m h he
    simp [WalletEncryptionUtil.reEncryptSeed, he,
      WalletEncryptionUtil.encryptSeedWithPin, hnew]

/-- Witness for C4: a v1 envelope re-encrypted through WalletEncryptionUtil
comes back as a pin_v3, 600000-iteration envelope. -/
theorem reEncrypt_upgrades_witness :
    WalletEncryptionUtil.reEncryptSeed
        (.json ⟨aesEncrypt (PBKDF2 "1234" 5 5000) 6 (.seedJson "m" "h"), 5, 6,
          some "pin_v1", 0⟩) "1234" "5678" 11 12 13
      = .ok ⟨aesEncrypt (PBKDF2 "5678" 11 600000) 12 (.seedJson "m" "h"),
            11, 12, some "pin_v3", 13⟩ :=
  (reEncrypt_upgrades
      (.json ⟨aesEncrypt (PBKDF2 "1234" 5 5000) 6 (.seedJson "m" "h"), 5, 6,
        some "pin_v1", 0⟩) "1234" "5678" 11 12 13
      (by decide) (by decide)).2.2.2 "m" "h" rfl

/-- C5: Lockout arithmetic.  Starting from the initial attempt state, the
first four recordFailedAttempt calls return unlocked with attemptsLeft
4, 3, 2, 1; the fifth sets lockoutUntil to its now plus 15 minutes and
returns locked with attemptsLeft 0; and a checkLockout before expiry
reports locked with the remaining time (exactly 15 minutes when checked at
the moment of the fifth failure). -/
theorem lockoutArithmetic (st0 : PinAttemptTracker.StoredVal) (t1 t2 t3 t4 t5 t : Nat)
    (h0 : PinAttemptTracker.getAttemptData st0 = PinAttemptTracker.initialData)
    (hta : t5 ≤ t) (htb : t < t5 + PinAttemptTracker.LOCKOUT_DURATION_MS) :
    (PinAttemptTracker.runFailedAttempts st0 [t1, t2, t3, t4, t5]).2
      = [⟨false, 0, 4⟩, ⟨false, 0, 3⟩, ⟨false, 0, 2⟩, ⟨false, 0, 1⟩,
         ⟨true, PinAttemptTracker.LOCKOUT_DURATION_MS, 0⟩]
    ∧ PinAttemptTracker.getAttemptData
        (PinAttemptTracker.runFailedAttempts st0 [t1, t2, t3, t4, t5]).1
      = ⟨5, some (t5 + PinAttemptTracker.LOCKOUT_DURATION_MS), t5⟩
    ∧ (PinAttemptTracker.checkLockout
        (PinAttemptTracker.runFailedAttempts st0 [t1, t2, t3, t4, t5]).1 t).2
      = ⟨true, t5 + PinAttemptTracker.LOCKOUT_DURATION_MS - t⟩ := by
  have hnz : t5 + PinAttemptTracker.LOCKOUT_DURATION_MS ≠ 0 := by
    simp [PinAttemptTracker.LOCKOUT_DURATION_MS]
  cases st0 with
  | data d =>
    have hd : d = PinAttemptTracker.initialData := h0
    subst hd
    refine ⟨?_, ?_, ?_⟩ <;>
      simp [PinAttemptTracker.runFailedAttempts, PinAttemptTracker.recordFailedAttempt,
        PinAttemptTracker.checkLockout, PinAttemptTracker.getAttemptData,
        PinAttemptTracker.setAttemptData, PinAttemptTracker.MAX_ATTEMPTS,
        PinAttemptTracker.initialData, htb, hnz]
  | absent =>
    refine ⟨?_, ?_, ?_⟩ <;>
      simp [PinAttemptTracker.runFailedAttempts, PinAttemptTracker.recordFailedAttempt,
        PinAttemptTracker.checkLockout, PinAttemptTracker.getAttemptData,
        PinAttemptTracker.setAttemptData, PinAttemptTracker.MAX_ATTEMPTS,
        PinAttemptTracker.initialData, htb, hnz]
  | malformed s =>
    refine ⟨?_, ?_, ?_⟩ <;>
      simp [PinAttemptTracker.runFailedAttempts, PinAttemptTracker.recordFailedAttempt,
        PinAttemptTracker.checkLockout, PinAttemptTracker.getAttemptData,
        PinAttemptTracker.setAttemptData, PinAttemptTracker.MAX_ATTEMPTS,
        PinAttemptTracker.initialData, htb, hnz]

/-- Witness for C5 with all five failures at time 0 and the check at the
same instant. -/
theorem lockoutArithmetic_witness :
    (PinAttemptTracker.runFailedAttempts .absent [0, 0, 0, 0, 0]).2
      = [⟨false, 0, 4⟩, ⟨false, 0, 3⟩, ⟨false, 0, 2⟩, ⟨false, 0, 1⟩,
         ⟨true, PinAttemptTracker.LOCKOUT_DURATION_MS, 0⟩]
    ∧ PinAttemptTracker.getAttemptData
        (PinAttemptTracker.runFailedAttempts .absent [0, 0, 0, 0, 0]).1
      = ⟨5, some (0 + PinAttemptTracker.LOCKOUT_DURATION_MS), 0⟩
    ∧ (PinAttemptTracker.checkLockout
        (PinAttemptTracker.runFailedAttempts .absent [0, 0, 0, 0, 0]).1 0).2
      = ⟨true, 0 + PinAttemptTracker.LOCKOUT_DURATION_MS - 0⟩ :=
  lockoutArithmetic .absent 0 0 0 0 0 0 (by decide) (by decide) (by decide)

/-- C6 counterexample: after five failed attempts at time 0 the stored
lockoutUntil is 900000 and the tracker is locked at time 1000, yet a sixth
recordFailedAttempt at time 1000 rewrites lockoutUntil to 901000 — the
lockout window is extended, not left unchanged. -/
theorem lockoutExtension_cex :
    (PinAttemptTracker.checkLockout
        (PinAttemptTracker.runFailedAttempts .absent [0, 0, 0, 0, 0]).1 1000).2.isLocked
      = true
    ∧ (PinAttemptTracker.getAttemptData
        (PinAttemptTracker.runFailedAttempts .absent [0, 0, 0, 0, 0]).1).lockoutUntil
      = some 900000
    ∧ (PinAttemptTracker.getAttemptData
        (PinAttemptTracker.recordFailedAttempt
          (PinAttemptTracker.runFailedAttempts .absent [0, 0, 0, 0, 0]).1 1000).1).lockoutUntil
      = some 901000 := by
  decide

/-- C6 amended: once at least four failures are on record, every further
recordFailedAttempt returns locked and rewrites lockoutUntil to its own
now plus 15 minutes — so a sixth failure before expiry moves the lockout
window to the later time instead of leaving the stored timestamp
unchanged. -/
theorem lockoutExtension_amended (st : PinAttemptTracker.StoredVal) (now : Nat)
    (h : 4 ≤ (PinAttemptTracker.getAttemptData st).failedAttempts) :
    (PinAttemptTracker.recordFailedAttempt st now).2
      = ⟨true, PinAttemptTracker.LOCKOUT_DURATION_MS, 0⟩
    ∧ PinAttemptTracker.getAttemptData (PinAttemptTracker.recordFailedAttempt st now).1
      = ⟨(PinAttemptTracker.getAttemptData st).failedAttempts + 1,
         some (now + PinAttemptTracker.LOCKOUT_DURATION_MS), now⟩ := by
  have h5 : PinAttemptTracker.MAX_ATTEMPTS
      ≤ (PinAttemptTracker.getAttemptData st).failedAttempts + 1 := by
    simp only [PinAttemptTracker.MAX_ATTEMPTS]
    omega
  refine ⟨?_, ?_⟩
  · simp only [PinAttemptTracker.recordFailedAttempt]
    rw [if_pos h5]
  · simp only [PinAttemptTracker.recordFailedAttempt]
    rw [if_pos h5]
    rfl

/-- Witness for C6 amended: a sixth failure at time 1000 on the state left
by five failures at time 0. -/
theorem lockoutExtension_amended_witness :
    (PinAttemptTracker.recordFailedAttempt
        (PinAttemptTracker.runFailedAttempts .absent [0, 0, 0, 0, 0]).1 1000).2
      = ⟨true, PinAttemptTracker.LOCKOUT_DURATION_MS, 0⟩
    ∧ PinAttemptTracker.getAttemptData
        (PinAttemptTracker.recordFailedAttempt
          (PinAttemptTracker.runFailedAttempts .absent [0, 0, 0, 0, 0]).1 1000).1
      = ⟨(PinAttemptTracker.getAttemptData
            (PinAttemptTracker.runFailedAttempts .absent [0, 0, 0, 0, 0]).1).failedAttempts + 1,
         some (1000 + PinAttemptTracker.LOCKOUT_DURATION_MS), 1000⟩ :=
  lockoutExtension_amended
    (PinAttemptTracker.runFailedAttempts .absent [0, 0, 0, 0, 0]).1 1000 (by decide)

/-- C7 counterexample: a locked state is also unlocked by
recordSuccessfulAttempt and by clearAttemptTracker, so the lazy reset in
checkLockout is not the only tracker operation transitioning Locked to
Unlocked. -/
theorem lazyReset_cex :
    (PinAttemptTracker.checkLockout (.data ⟨5, some 900000, 0⟩) 0).2.isLocked = true
    ∧ (PinAttemptTracker.checkLockout
        (PinAttemptTracker.recordSuccessfulAttempt (.data ⟨5, some 900000, 0⟩)) 0).2.isLocked
      = false
    ∧ (PinAttemptTracker.checkLockout
        (PinAttemptTracker.clearAttemptTracker (.data ⟨5, some 900000, 0⟩)) 0).2.isLocked
      = false := by
  decide

/-- C7 amended: when the stored lockout timestamp is nonzero (a stored zero
is falsy in JavaScript and skips the lockout block entirely) and has
expired, checkLockout resets the persisted state to zero failures and no
lockout and reports unlocked; recordFailedAttempt never transitions a
locked state to unlocked; but besides the lazy reset,
recordSuccessfulAttempt and clearAttemptTracker also transition Locked to
Unlocked. -/
theorem lazyReset_amended (st : PinAttemptTracker.StoredVal) (now : Nat) :
    (∀ u, (PinAttemptTracker.getAttemptData st).lockoutUntil = some u → u ≠ 0 → u ≤ now →
        PinAttemptTracker.checkLockout st now
          = (PinAttemptTracker.setAttemptData ⟨0, none, 0⟩, ⟨false, 0⟩))
    ∧ ((PinAttemptTracker.getAttemptData st).lockoutUntil = some 0 →
        PinAttemptTracker.checkLockout st now = (st, ⟨false, 0⟩))
    ∧ (∀ u, (PinAttemptTracker.getAttemptData st).lockoutUntil = some u → now < u →
        (PinAttemptTracker.checkLockout
          (PinAttemptTracker.recordFailedAttempt st now).1 now).2.isLocked = true)
    ∧ (PinAttemptTracker.checkLockout
        (PinAttemptTracker.recordSuccessfulAttempt st) now).2.isLocked = false
    ∧ (PinAttemptTracker.checkLockout
        (PinAttemptTracker.clearAttemptTracker st) now).2.isLocked = false := by
  refine ⟨?_, ?_, ?_, ?_, ?_⟩
  · intro u hu hnz hle
    simp [PinAttemptTracker.checkLockout, hu, hnz, Nat.not_lt.2 hle]
  · intro hu
    simp [PinAttemptTracker.checkLockout, hu]
  · intro u hu hlt
    have hunz : u ≠ 0 := by omega
    have hdnz : now + PinAttemptTracker.LOCKOUT_DURATION_MS ≠ 0 := by
      simp [PinAttemptTracker.LOCKOUT_DURATION_MS]
    by_cases hc : PinAttemptTracker.MAX_ATTEMPTS
        ≤ (PinAttemptTracker.getAttemptData st).failedAttempts + 1
    · simp only [PinAttemptTracker.recordFailedAttempt]
      rw [if_pos hc]
      simp [PinAttemptTracker.checkLockout, PinAttemptTracker.setAttemptData,
        PinAttemptTracker.getAttemptData, hdnz,
        Nat.lt_add_of_pos_right (by decide : 0 < PinAttemptTracker.LOCKOUT_DURATION_MS)]
    · simp only [PinAttemptTracker.recordFailedAttempt]
      rw [if_neg hc, hu]
      simp [PinAttemptTracker.checkLockout, PinAttemptTracker.setAttemptData,
        PinAttemptTracker.getAttemptData, hunz, hlt]
  · simp [PinAttemptTracker.recordSuccessfulAttempt, PinAttemptTracker.checkLockout,
      PinAttemptTracker.setAttemptData, PinAttemptTracker.getAttemptData]
  · simp [PinAttemptTracker.clearAttemptTracker, PinAttemptTracker.checkLockout,
      PinAttemptTracker.getAttemptData, PinAttemptTracker.initialData]

/-- Witness for C7 amended: an expired nonzero lockout is reset and reads
as unlocked, and a live lockout survives a further failed attempt. -/
theorem lazyReset_amended_witness :
    PinAttemptTracker.checkLockout (.data ⟨5, some 100, 0⟩) 100
      = (PinAttemptTracker.setAttemptData ⟨0, none, 0⟩, ⟨false, 0⟩)
    ∧ (PinAttemptTracker.checkLockout
        (PinAttemptTracker.recordFailedAttempt (.data ⟨5, some 100, 0⟩) 50).1 50).2.isLocked
      = true :=
  ⟨(lazyReset_amended (.data ⟨5, some 100, 0⟩) 100).1 100 rfl (by decide) (by decide),
   (lazyReset_amended (.data ⟨5, some 100, 0⟩) 50).2.2.1 100 rfl (by decide)⟩

/-- Helper: a character passes Char.isDigit exactly when its code point is
an ASCII digit (48 to 57). -/
theorem isDigit_iff_toNat (c : Char) :
    c.isDigit = true ↔ 48 ≤ c.toNat ∧ c.toNat ≤ 57 := by
  simp [Char.isDigit, Bool.and_eq_true, decide_eq_true_iff, UInt32.le_def, BitVec.le_def,
    Char.toNat, UInt32.toNat]

/-- C8 counterexample: the worker encryptSeed performs no PIN validation —
with the invalid PIN 12 it still derives a key and produces an envelope
that decrypts, instead of rejecting with an InvalidPin failure. -/
theorem pinValidation_cex :
    WalletEncryptionUtil.validatePin "12" = false
    ∧ CryptoWorkerRev.encryptSeed "m" "h" "12" 5 6 7
      = ⟨aesEncrypt (PBKDF2 "12" 5 600000) 6 (.seedJson "m" "h"), 5, 6, some "pin_v3", 7⟩
    ∧ CryptoWorkerRev.decryptSeed
        (.json (CryptoWorkerRev.encryptSeed "m" "h" "12" 5 6 7)) "12"
      = .ok ⟨"m", "h"⟩ :=
  ⟨by decide, rfl, rfl⟩

/-- C8 amended: validatePin is true exactly when the pin consists of 4 to 6
ASCII digit characters, and WalletEncryptionUtil.encryptSeedWithPin rejects
a pin failing the validator with an InvalidPin failure before any key
derivation; the worker encryptSeed, however, performs no PIN validation and
encrypts with whatever pin string it is given. -/
theorem pinValidation_amended (pin m h : String) (salt iv ts : Nat) :
    (WalletEncryptionUtil.validatePin pin = true
      ↔ 4 ≤ pin.length ∧ pin.length ≤ 6 ∧ ∀ c ∈ pin.toList, 48 ≤ c.toNat ∧ c.toNat ≤ 57)
    ∧ (WalletEncryptionUtil.validatePin pin = false →
        WalletEncryptionUtil.encryptSeedWithPin m h pin salt iv ts = .error .invalidPin)
    ∧ CryptoWorkerRev.encryptSeed m h pin salt iv ts
      = ⟨aesEncrypt (PBKDF2 pin salt 600000) iv (.seedJson m h), salt, iv,
        some "pin_v3", ts⟩ := by
  refine ⟨?_, ?_, rfl⟩
  · simp only [WalletEncryptionUtil.validatePin, Bool.and_eq_true, decide_eq_true_iff,
      List.all_eq_true, isDigit_iff_toNat, and_assoc]
  · intro hv
    simp [WalletEncryptionUtil.encryptSeedWithPin, hv]

/-- Witness for C8 amended: a non-digit PIN is rejected by
encryptSeedWithPin. -/
theorem pinValidation_amended_witness :
    WalletEncryptionUtil.encryptSeedWithPin "m" "h" "12ab" 1 2 3 = .error .invalidPin :=
  (pinValidation_amended "12ab" "m" "h" 1 2 3).2.1 (by decide)

/-- C9: Wrong-length KEM ciphertext rejection.  For every session state and
every base64 input whose decoded byte length is not the ML-KEM-1024
ciphertext size of 1568 bytes, completeKeyExchange returns false without
throwing and leaves the state untouched: isReady is unchanged (so a
not-yet-ready session stays not ready) and no AES key is derived. -/
theorem kemWrongLength (st : Option BridgeCrypto.DecapsulatorState) (bytes : List Nat)
    (hlen : bytes.length ≠ 1568) :
    BridgeCrypto.completeKeyExchange st (.valid bytes) = (st, false)
    ∧ BridgeCrypto.isReady (BridgeCrypto.completeKeyExchange st (.valid bytes)).1
      = BridgeCrypto.isReady st
    ∧ (BridgeCrypto.completeKeyExchange st (.valid bytes)).1.map (fun s => s.aesKey)
      = st.map (fun s => s.aesKey) := by
  cases st with
  | none => simp [BridgeCrypto.completeKeyExchange]
  | some s => simp [BridgeCrypto.completeKeyExchange, hlen]

/-- Witness for C9: a fresh session rejects an empty ciphertext and stays
not ready. -/
theorem kemWrongLength_witness :
    BridgeCrypto.completeKeyExchange (some (BridgeCrypto.generateKeyPair ⟨1, 2⟩)) (.valid [])
      = (some (BridgeCrypto.generateKeyPair ⟨1, 2⟩), false)
    ∧ BridgeCrypto.isReady
        (BridgeCrypto.completeKeyExchange
          (some (BridgeCrypto.generateKeyPair ⟨1, 2⟩)) (.valid [])).1
      = BridgeCrypto.isReady (some (BridgeCrypto.generateKeyPair ⟨1, 2⟩))
    ∧ (BridgeCrypto.completeKeyExchange
          (some (BridgeCrypto.generateKeyPair ⟨1, 2⟩)) (.valid [])).1.map (fun s => s.aesKey)
      = (some (BridgeCrypto.generateKeyPair ⟨1, 2⟩)).map (fun s => s.aesKey) :=
  kemWrongLength (some (BridgeCrypto.generateKeyPair ⟨1, 2⟩)) [] (by decide)

/-- C10: corrupted attempt state fails open.  When the persisted attempt
record is absent or not parseable as JSON, every read behaves as if the
state were the initial record: checkLockout reports unlocked and writes
nothing, recordFailedAttempt behaves exactly as from the initial state and
reports four attempts left, getRemainingAttempts is 5, and
hasFailedAttempts is false — none of the reads throws (all are total). -/
theorem corruptedStateFailsOpen (st : PinAttemptTracker.StoredVal) (now : Nat) (s : String)
    (h : st = .absent ∨ st = .malformed s) :
    PinAttemptTracker.getAttemptData st = PinAttemptTracker.initialData
    ∧ PinAttemptTracker.checkLockout st now = (st, ⟨false, 0⟩)
    ∧ PinAttemptTracker.recordFailedAttempt st now
      = PinAttemptTracker.recordFailedAttempt (.data PinAttemptTracker.initialData) now
    ∧ (PinAttemptTracker.recordFailedAttempt st now).2 = ⟨false, 0, 4⟩
    ∧ PinAttemptTracker.getRemainingAttempts st = 5
    ∧ PinAttemptTracker.hasFailedAttempts st = false := by
  rcases h with rfl | rfl <;> exact ⟨rfl, rfl, rfl, rfl, rfl, rfl⟩

/-- Witness for C10 on an absent record. -/
theorem corruptedStateFailsOpen_witness :
    PinAttemptTracker.getAttemptData .absent = PinAttemptTracker.initialData
    ∧ PinAttemptTracker.checkLockout .absent 3 = (.absent, ⟨false, 0⟩)
    ∧ PinAttemptTracker.recordFailedAttempt .absent 3
      = PinAttemptTracker.recordFailedAttempt (.data PinAttemptTracker.initialData) 3
    ∧ (PinAttemptTracker.recordFailedAttempt .absent 3).2 = ⟨false, 0, 4⟩
    ∧ PinAttemptTracker.getRemainingAttempts .absent = 5
    ∧ PinAttemptTracker.hasFailedAttempts .absent = false :=
  corruptedStateFailsOpen .absent 3 "bad" (Or.inl rfl)

end MyQRLWallet
